import Mathlib

/-!
Verification development for the orderflow-backtest repository.

The Python source is shallowly embedded over exact rationals:

* A pandas float cell is modelled as `Option ℚ`, where `none` stands for
  `NaN` (missing value).  Arithmetic propagates `none`; comparisons with a
  `none` operand are `false`, except `!= 0`, which pandas evaluates to
  `True` for `NaN` — exactly as the source relies on.
* A pandas `DataFrame` is an association list of named columns.
* Fallible operations (`iloc[-1]` on an empty frame, `pd.cut` validation,
  `idxmax` on an empty series) are modelled with `Except String`, the
  message naming the Python exception that the corresponding line raises.
* Python float division by zero produces `inf`/`nan`; the model maps both
  to `none`.  No theorem below exercises that edge (all concrete inputs
  keep divisors nonzero), so the conflation is harmless.
-/

namespace OrderflowBacktest

/-- A pandas float cell: `none` models `NaN`. -/
abbrev PFloat := Option ℚ

/-- Addition with `NaN` propagation. -/
def pAdd : PFloat → PFloat → PFloat
  | some a, some b => some (a + b)
  | _, _ => none

/-- Subtraction with `NaN` propagation. -/
def pSub : PFloat → PFloat → PFloat
  | some a, some b => some (a - b)
  | _, _ => none

/-- Multiplication with `NaN` propagation (`NaN * 0 = NaN`, as in pandas). -/
def pMul : PFloat → PFloat → PFloat
  | some a, some b => some (a * b)
  | _, _ => none

/-- Negation with `NaN` propagation. -/
def pNeg : PFloat → PFloat
  | some a => some (-a)
  | none => none

/-- Division.  A `NaN` operand yields `NaN`; a zero divisor yields
`inf`/`nan` in Python, collapsed to `none` here (unexercised edge). -/
def pDiv : PFloat → PFloat → PFloat
  | some a, some b => if b = 0 then none else some (a / b)
  | _, _ => none

/-- The pandas test `x != 0`: `NaN != 0` evaluates to `True`. -/
def pNe0 : PFloat → Bool
  | some a => decide (a ≠ 0)
  | none => true

/-- The pandas test `x > 0`: any comparison with `NaN` is `False`. -/
def pGt0 : PFloat → Bool
  | some a => decide (0 < a)
  | none => false

/-- The pandas test `x < 0`: any comparison with `NaN` is `False`. -/
def pLt0 : PFloat → Bool
  | some a => decide (a < 0)
  | none => false

/-- Model of `Series.shift(1)`: a `NaN` enters at position 0, the last value drops. -/
def shift1 (xs : List PFloat) : List PFloat :=
  match xs with
  | [] => []
  | _ => none :: xs.dropLast

/-- Model of `Series.pct_change()`: entry `t` is `x[t]/x[t-1] - 1`, `NaN` at entry 0. -/
def pct_change (xs : List PFloat) : List PFloat :=
  match xs with
  | [] => []
  | _ => none :: List.zipWith (fun prev cur => pDiv (pSub cur prev) prev) xs (xs.drop 1)

/-- Auxiliary for `Series.cumprod` with `skipna=True`: `NaN` cells stay
`NaN` and do not poison the running product. -/
def cumprodSkipAux : ℚ → List PFloat → List PFloat
  | _, [] => []
  | acc, none :: rest => none :: cumprodSkipAux acc rest
  | acc, some x :: rest => some (acc * x) :: cumprodSkipAux (acc * x) rest

/-- Model of `Series.cumprod()` (skipna, the pandas default). -/
def cumprodSkip (xs : List PFloat) : List PFloat :=
  cumprodSkipAux 1 xs

/-- Auxiliary for `Series.cummax` with `skipna=True`. -/
def cummaxSkipAux : Option ℚ → List PFloat → List PFloat
  | _, [] => []
  | acc, none :: rest => none :: cummaxSkipAux acc rest
  | acc, some x :: rest =>
    let m := match acc with
      | none => x
      | some a => max a x
    some m :: cummaxSkipAux (some m) rest

/-- Model of `Series.cummax()` (skipna, the pandas default). -/
def cummaxSkip (xs : List PFloat) : List PFloat :=
  cummaxSkipAux none xs

/-- Model of `Series.max()` (skipna): `NaN` on an empty or all-`NaN` series. -/
def maxSkip (xs : List PFloat) : PFloat :=
  (xs.filterMap id).foldl
    (fun acc x =>
      match acc with
      | none => some x
      | some a => some (max a x)) none

/-- Model of `Series.mean()` (skipna): `NaN` when no numeric entry exists. -/
def meanSkip (xs : List PFloat) : PFloat :=
  let vs := xs.filterMap id
  if vs.length = 0 then none else some (vs.sum / (vs.length : ℚ))

/-- Sample variance of a series (pandas `std` squared, `ddof=1`, skipna):
`NaN` with fewer than two numeric entries. -/
def varSkip (xs : List PFloat) : PFloat :=
  let vs := xs.filterMap id
  if vs.length < 2 then none
  else
    let m := vs.sum / (vs.length : ℚ)
    some ((vs.map (fun x => (x - m) ^ 2)).sum / ((vs.length : ℚ) - 1))

/-- A pandas `DataFrame`: named columns over a shared row index. -/
structure DF where
  cols : List (String × List PFloat)
deriving Repr, DecidableEq

/-- Column lookup, `df[name]` (first column carrying the name). -/
def DF.getCol? (df : DF) (name : String) : Option (List PFloat) :=
  (df.cols.find? (fun c => c.1 == name)).map (·.2)

/-- Column assignment, `df[name] = v`: overwrite in place when the name
exists, otherwise append the new column at the end — pandas semantics. -/
def DF.setCol (df : DF) (name : String) (v : List PFloat) : DF :=
  if df.cols.any (fun c => c.1 == name) then
    ⟨df.cols.map (fun c => if c.1 == name then (name, v) else c)⟩
  else
    ⟨df.cols ++ [(name, v)]⟩

/-- The performance-statistics record built by `BacktestEngine._calculate_stats`.
`profit_factor` is `Option ℚ` whose `none` encodes `np.inf` (the guarded
else-branch of the source); every other optional field uses `none` for `NaN`.
The source's `sharpe_ratio` is `sqrt(252) * mean / std` guarded by
`std != 0`; `sqrt` is irrational, so the record keeps the determining
rational data `ret_mean` and `ret_var` (sample variance) instead of the
scaled quotient.  No claim concerns the Sharpe value itself. -/
structure Stats where
  total_trades : ℕ
  win_rate : ℚ
  avg_win : PFloat
  avg_loss : PFloat
  profit_factor : PFloat
  max_drawdown : PFloat
  ret_mean : PFloat
  ret_var : PFloat
  total_return : PFloat
deriving Repr, DecidableEq

/-- The trades frame `df[df['position'] != 0]` restricted to the columns the statistics read:
rows are (position, returns) pairs.  A `NaN` position passes the filter,
because pandas evaluates `NaN != 0` to `True`. -/
def trades_of (position returns : List PFloat) : List (PFloat × PFloat) :=
  (position.zip returns).filter (fun row => pNe0 row.1)

/-- The filter `winning_trades = trades[trades['returns'] > 0]`. -/
def winning_of (position returns : List PFloat) : List (PFloat × PFloat) :=
  (trades_of position returns).filter (fun row => pGt0 row.2)

/-- The filter `losing_trades = trades[trades['returns'] < 0]`. -/
def losing_of (position returns : List PFloat) : List (PFloat × PFloat) :=
  (trades_of position returns).filter (fun row => pLt0 row.2)

/-- The source line `win_rate = len(winning_trades) / total_trades if total_trades > 0 else 0`. -/
def win_rate_of (position returns : List PFloat) : ℚ :=
  if 0 < (trades_of position returns).length then
    ((winning_of position returns).length : ℚ) / ((trades_of position returns).length : ℚ)
  else 0

/-- The source line `avg_win = winning_trades['returns'].mean() if len(winning_trades) > 0 else 0`. -/
def avg_win_of (position returns : List PFloat) : PFloat :=
  if 0 < (winning_of position returns).length then
    meanSkip ((winning_of position returns).map (·.2))
  else some 0

/-- The source line `avg_loss = losing_trades['returns'].mean() if len(losing_trades) > 0 else 0`. -/
def avg_loss_of (position returns : List PFloat) : PFloat :=
  if 0 < (losing_of position returns).length then
    meanSkip ((losing_of position returns).map (·.2))
  else some 0

/-- The source line `profit_factor = -avg_win / avg_loss if avg_loss != 0 else np.inf`;
the else-branch `np.inf` is encoded as `none`. -/
def profit_factor_of (position returns : List PFloat) : PFloat :=
  if avg_loss_of position returns ≠ some 0 then
    pNeg (pDiv (avg_win_of position returns) (avg_loss_of position returns))
  else none

/-- The method `BacktestEngine._calculate_stats` (src/backtest/engine.py, lines 38-62),
acting on the three derived columns.  The only fallible step is
`df['equity'].iloc[-1]`, which raises `IndexError` on an empty frame; every
other reducer has a total fallback, so the match is hoisted to the front
without observable difference. -/
def calculate_stats (position returns equity : List PFloat) : Except String Stats :=
  match equity.getLast? with
  | none => .error "IndexError: single positional indexer is out-of-bounds"
  | some lastEq =>
    .ok { total_trades := (trades_of position returns).length
          win_rate := win_rate_of position returns
          avg_win := avg_win_of position returns
          avg_loss := avg_loss_of position returns
          profit_factor := profit_factor_of position returns
          max_drawdown := maxSkip (List.zipWith pSub (cummaxSkip equity) equity)
          ret_mean := meanSkip returns
          ret_var := varSkip returns
          total_return := pSub lastEq (some 1) }

/-- The `position` column: `df['signal'].shift(1)`. -/
def position_col (signal : List PFloat) : List PFloat :=
  shift1 signal

/-- The `returns` column: `df['close'].pct_change() * df['position']`. -/
def returns_col (close signal : List PFloat) : List PFloat :=
  List.zipWith pMul (pct_change close) (position_col signal)

/-- The `equity` column: `(1 + df['returns']).cumprod()`. -/
def equity_col (close signal : List PFloat) : List PFloat :=
  cumprodSkip ((returns_col close signal).map (fun r => pAdd (some 1) r))

/-- The method `BacktestEngine.run_backtest` (src/backtest/engine.py, lines 12-36):
appends the `position`, `returns` and `equity` columns to the caller's
frame in place and returns the mutated frame together with the statistics.
A missing required column raises `KeyError` in Python. -/
def run_backtest (df : DF) : Except String (DF × Stats) :=
  match df.getCol? "signal", df.getCol? "close" with
  | none, _ => .error "KeyError: signal"
  | some _, none => .error "KeyError: close"
  | some signal, some close =>
    let position := position_col signal
    let returns := returns_col close signal
    let equity := equity_col close signal
    let dfOut := ((df.setCol "position" position).setCol "returns" returns).setCol "equity" equity
    match calculate_stats position returns equity with
    | .error e => .error e
    | .ok stats => .ok (dfOut, stats)

/-! ### Range-POI strategy (src/strategies/range_poi.py)

`generate_signal` first computes nine point-of-interest price levels from
the indicator pipeline and then scans them in a fixed order.  The level
values are taken as parameters here (the spec's §4.2/§4.3 hand the
confluence detector a ranked list of named levels); a level that is `NaN`
in the source — e.g. the swing levels, see `detect_swing_points` below —
is a `none` entry.  The scan itself is embedded verbatim. -/

/-- Bullish absorption from `RangePOIStrategy.detect_trapped_delta`:
`close[i] < close[i-1]` and `delta[i] > delta[i-1]`. -/
def bull_trap (closes deltas : List ℚ) (i : ℕ) : Bool :=
  decide (closes.getD i 0 < closes.getD (i - 1) 0) &&
    decide (deltas.getD i 0 > deltas.getD (i - 1) 0)

/-- Bearish absorption from `RangePOIStrategy.detect_trapped_delta`:
`close[i] > close[i-1]` and `delta[i] < delta[i-1]`. -/
def bear_trap (closes deltas : List ℚ) (i : ℕ) : Bool :=
  decide (closes.getD i 0 > closes.getD (i - 1) 0) &&
    decide (deltas.getD i 0 < deltas.getD (i - 1) 0)

/-- The method `RangePOIStrategy.detect_trapped_delta` (src/strategies/range_poi.py,
lines 81-96): `False` for `i < 2`, otherwise bullish or bearish absorption. -/
def detect_trapped_delta (closes deltas : List ℚ) (i : ℕ) : Bool :=
  if i < 2 then false
  else bull_trap closes deltas i || bear_trap closes deltas i

/-- The `poi_levels` list built inside `generate_signal`, in source order. -/
def poi_levels (vah valr sh sl mondayHigh mondayLow vwapUpper vwap vwapLower : PFloat) :
    List (String × PFloat) :=
  [("VAH", vah), ("VAL", valr), ("Swing High", sh), ("Swing Low", sl),
   ("Monday High", mondayHigh), ("Monday Low", mondayLow),
   ("VWAP Upper", vwapUpper), ("VWAP", vwap), ("VWAP Lower", vwapLower)]

/-- The two signal branches of the loop body: buy when delta is increasing
and absorption holds, sell when delta is decreasing and absorption holds,
otherwise fall through (`0`). -/
def poi_signal (current_delta prev_delta : ℚ) (trapped : Bool) : Int :=
  if current_delta > prev_delta && trapped then 1
  else if current_delta < prev_delta && trapped then -1
  else 0

/-- The `for poi_name, level in poi_levels` loop of
`RangePOIStrategy.generate_signal` (src/strategies/range_poi.py,
lines 131-172).  The second component of the result lists the levels that
matched (`diff < threshold`), i.e. the sequence of `POI HIT!` log lines.

`fetcher` models `self.fetcher` and the order-book lookup at bar `i`'s
timestamp: `none` = no fetcher configured (the bulk `delta` column drives
the decision); `some none` = fetcher configured but the lookup raises,
returns `None`, or returns a record without a `delta` key — the source
prints a message and `continue`s to the next level; `some (some d)` =
lookup succeeds with delta `d`, which overwrites `current_delta` for this
and all later iterations, and `prev_delta` is re-read from the column.
The lookup is keyed on `df.index[i]` only, so its result is the same at
every level of one call. -/
def confluence_scan (closes deltas : List ℚ) (i : ℕ) (fetcher : Option (Option ℚ)) :
    List (String × PFloat) → ℚ → ℚ → Int × List String
  | [], _, _ => (0, [])
  | (name, lv) :: rest, current_delta, prev_delta =>
    match lv with
    | none => confluence_scan closes deltas i fetcher rest current_delta prev_delta
    | some level =>
      let current_close := closes.getD i 0
      let threshold := (55 / 10000 : ℚ) * current_close
      let diff := |current_close - level|
      if diff < threshold then
        match fetcher with
        | some (some ob_delta) =>
          let cd := ob_delta
          let pd := if 0 < i then deltas.getD (i - 1) 0 else 0
          let ev := poi_signal cd pd (detect_trapped_delta closes deltas i)
          if ev ≠ 0 then (ev, [name])
          else
            let tail := confluence_scan closes deltas i fetcher rest cd pd
            (tail.1, name :: tail.2)
        | some none =>
          let tail := confluence_scan closes deltas i fetcher rest current_delta prev_delta
          (tail.1, name :: tail.2)
        | none =>
          let ev := poi_signal current_delta prev_delta (detect_trapped_delta closes deltas i)
          if ev ≠ 0 then (ev, [name])
          else
            let tail := confluence_scan closes deltas i fetcher rest current_delta prev_delta
            (tail.1, name :: tail.2)
      else confluence_scan closes deltas i fetcher rest current_delta prev_delta

/-- The method `RangePOIStrategy.generate_signal` (src/strategies/range_poi.py,
lines 98-174) with its matched-level log: the `i < 20` warm-up gate, the
pre-loop reads `current_delta = delta[i]`, `prev_delta = delta[i-1]`, then
the level scan.  The nine level values are parameters (see the section
comment); the source passes `poi_levels`. -/
def generate_signal_log (closes deltas : List ℚ) (levels : List (String × PFloat))
    (fetcher : Option (Option ℚ)) (i : ℕ) : Int × List String :=
  if i < 20 then (0, [])
  else confluence_scan closes deltas i fetcher levels (deltas.getD i 0) (deltas.getD (i - 1) 0)

/-- The emitted signal of `RangePOIStrategy.generate_signal`. -/
def generate_signal (closes deltas : List ℚ) (levels : List (String × PFloat))
    (fetcher : Option (Option ℚ)) (i : ℕ) : Int :=
  (generate_signal_log closes deltas levels fetcher i).1

/-- The levels of a scan list lying within the proximity threshold of the
current close, in scan order (the spec's "levels within threshold"). -/
def matched_levels (current_close : ℚ) (levels : List (String × PFloat)) : List String :=
  levels.filterMap (fun nl =>
    match nl.2 with
    | none => none
    | some lv =>
      if |current_close - lv| < (55 / 10000 : ℚ) * current_close then some nl.1 else none)

/-! ### Swing-point detection (src/strategies/range_poi.py, lines 21-27) -/

/-- The in-range index window of a centered rolling window of odd width `w`
at position `j` of an `n`-row series (pandas `rolling(w, center=True)`):
positions `j - w/2 … j + (w - w/2) - 1`, clipped to `[0, n)`. -/
def rolling_center_window (w n j : ℕ) : List ℕ :=
  let lo := j - w / 2
  let hi := min n (j + (w - w / 2))
  (List.range (hi - lo)).map (fun o => lo + o)

/-- Model of `Series.rolling(w, center=True).max()`: with the default
`min_periods = w`, a position whose centered window is clipped by either
edge of the series yields `NaN`. -/
def rolling_center_max (w : ℕ) (xs : List ℚ) : List PFloat :=
  (List.range xs.length).map (fun j =>
    let win := (rolling_center_window w xs.length j).map (fun k => xs.getD k 0)
    if win.length = w then
      match win with
      | [] => none
      | y :: ys => some (ys.foldl max y)
    else none)

/-- Model of `Series.rolling(w, center=True).min()`, same window semantics. -/
def rolling_center_min (w : ℕ) (xs : List ℚ) : List PFloat :=
  (List.range xs.length).map (fun j =>
    let win := (rolling_center_window w xs.length j).map (fun k => xs.getD k 0)
    if win.length = w then
      match win with
      | [] => none
      | y :: ys => some (ys.foldl min y)
    else none)

/-- The method `RangePOIStrategy.detect_swing_points` with the default
`lookback = 5`: the value of each rolling series at `iloc[-1]`.  The outer
`Option` is the `iloc[-1]` access itself (`none` = `IndexError` on an
empty frame); the inner `PFloat` is the cell, `NaN` when the trailing
centered window is incomplete. -/
def detect_swing_points (highs lows : List ℚ) : Option PFloat × Option PFloat :=
  ((rolling_center_max 5 highs).getLast?, (rolling_center_min 5 lows).getLast?)

/-! ### Volume profile (src/data/processor.py, lines 40-57) -/

/-- Model of `np.linspace a b k` (endpoint included). -/
def linspace (a b : ℚ) (k : ℕ) : List ℚ :=
  if k = 0 then []
  else if k = 1 then [a]
  else (List.range k).map (fun j : ℕ => a + (b - a) * (j : ℚ) / ((k : ℚ) - 1))

/-- Model of `Series.min()` over a nonempty numeric column (callers never pass an
empty frame in any claim; pandas would give `NaN` there). -/
def series_min (xs : List ℚ) : ℚ :=
  match xs with
  | [] => 0
  | x :: rest => rest.foldl min x

/-- Model of `Series.max()` over a nonempty numeric column. -/
def series_max (xs : List ℚ) : ℚ :=
  match xs with
  | [] => 0
  | x :: rest => rest.foldl max x

/-- Helper walking consecutive edge pairs for `cut_bin?`. -/
def cut_bin_go (x lo : ℚ) : List ℚ → Option ℚ
  | [] => none
  | hi :: rest => if lo < x ∧ x ≤ hi then some lo else cut_bin_go x hi rest

/-- The bin label `pd.cut` assigns to `x` for edge list `edges` with
`labels = edges[:-1]` (right-closed intervals): the left edge of the first
interval `(edges[j], edges[j+1]]` containing `x`, `NaN` otherwise. -/
def cut_bin? (edges : List ℚ) (x : ℚ) : Option ℚ :=
  match edges with
  | [] => none
  | e0 :: rest => cut_bin_go x e0 rest

/-- Helper for `idxmax?`: keep the first strict maximum seen so far. -/
def idxmax_go (bc bs : ℚ) : List (ℚ × ℚ) → ℚ
  | [] => bc
  | (c, s) :: rest => if s > bs then idxmax_go c s rest else idxmax_go bc bs rest

/-- Model of `Series.idxmax()` over a label-indexed series: the label of the first
occurrence of the maximal value; `None` marks the `ValueError` the source
raises on an empty series. -/
def idxmax? : List (ℚ × ℚ) → Option ℚ
  | [] => none
  | (c, s) :: rest => some (idxmax_go c s rest)

/-- The function `calculate_volume_profile` (src/data/processor.py, lines 40-57).
Returns `(vp_range[0], vp_range[-1], poc_bin)` on success.  The error
branches mirror the Python exceptions, in pandas evaluation order:
`cut` first rejects strictly decreasing edges ("bins must increase
monotonically"); `_bins_to_cuts` then rejects duplicated edges under the
default `duplicates="raise"` — a check that exempts exactly two edges
(`len(bins) != 2`) — then validates the labels under the default
`ordered=True`: duplicated labels first, then a label list whose length
is not `len(bins) - 1` (hit when `bins = 0`); finally `idxmax` raises on
an empty grouped series (hit when `bins = 1`, where the label set is
empty).  With `labels = vp_range[:-1]`, once the edges pass the
duplicate-edges check the labels are unique too, so the label-uniqueness
branch is never reached by this caller. -/
def calculate_volume_profile (lows highs closes volumes : List ℚ) (bins : ℕ) :
    Except String (ℚ × ℚ × ℚ) :=
  let vp_range := linspace (series_min lows) (series_max highs) bins
  if (List.zipWith (fun u v => decide (v < u)) vp_range (vp_range.drop 1)).any id then
    .error "ValueError: bins must increase monotonically"
  else if ¬ vp_range.Nodup ∧ vp_range.length ≠ 2 then
    .error "ValueError: Bin edges must be unique"
  else
    let labels := vp_range.dropLast
    if ¬ labels.Nodup then
      .error "ValueError: labels must be unique if ordered=True"
    else if (labels.length : ℤ) ≠ (vp_range.length : ℤ) - 1 then
      .error "ValueError: Bin labels must be one fewer than the number of bin edges"
    else
      let rows := closes.zip volumes
      let volume_per_bin := labels.map (fun c =>
        (c, ((rows.filter (fun row => cut_bin? vp_range row.1 = some c)).map (·.2)).sum))
      match idxmax? volume_per_bin with
      | none => .error "ValueError: attempt to get argmax of an empty sequence"
      | some poc_bin => .ok (vp_range.headD 0, vp_range.getLastD 0, poc_bin)

/-! ### Derived shapes and concrete inputs used by the theorems below -/

/-- The caller's frame after `run_backtest` mutated it: the three derived
columns assigned in source order. -/
def df_with_cols (df : DF) (signal close : List PFloat) : DF :=
  ((df.setCol "position" (position_col signal)).setCol "returns"
    (returns_col close signal)).setCol "equity" (equity_col close signal)

/-- The statistics record `run_backtest` produces, spelled out over the
derived columns (`lastE` is `df['equity'].iloc[-1]`). -/
def stats_of (signal close : List PFloat) (lastE : PFloat) : Stats :=
  { total_trades := (trades_of (position_col signal) (returns_col close signal)).length
    win_rate := win_rate_of (position_col signal) (returns_col close signal)
    avg_win := avg_win_of (position_col signal) (returns_col close signal)
    avg_loss := avg_loss_of (position_col signal) (returns_col close signal)
    profit_factor := profit_factor_of (position_col signal) (returns_col close signal)
    max_drawdown := maxSkip (List.zipWith pSub (cummaxSkip (equity_col close signal))
      (equity_col close signal))
    ret_mean := meanSkip (returns_col close signal)
    ret_var := varSkip (returns_col close signal)
    total_return := pSub lastE (some 1) }

/-- Bars for the C1 scenario: flat price 100 and flat delta, so the
evaluation at bar 20 is `FLAT`. -/
def c1_closes : List ℚ := List.replicate 21 100

def c1_deltas : List ℚ := List.replicate 21 5

def c1_levels : List (String × PFloat) :=
  poi_levels (some 100) (some (1003 / 10)) none none none none none none none

/-- Bars for the C6/C8 scenario: at bar 20 the close fell (100 → 99.8)
while the bulk delta rose (5 → 6), so the bulk-delta evaluation is a
`LONG`; `VAH = 100` is within the 0.55 threshold of 99.8. -/
def c6_closes : List ℚ := List.replicate 20 100 ++ [499 / 5]

def c6_deltas : List ℚ := List.replicate 20 5 ++ [6]

def c6_levels : List (String × PFloat) :=
  poi_levels (some 100) none none none none none none none none

def c7_highs : List ℚ := [1, 2, 3, 4, 5, 6, 7]

def c7_lows : List ℚ := [1, 2, 3, 4, 5, 6, 7]

/-- Two-bar frame for C2: the signal is 1 then 0. -/
def dfc2 : DF := ⟨[("close", [some 10, some 11]), ("signal", [some 1, some 0])]⟩

/-- The spec's zero-trade scenario: 100 bars, all signals 0. -/
def dfc3 : DF :=
  ⟨[("close", List.replicate 100 (some 100)), ("signal", List.replicate 100 (some 0))]⟩

/-- An empty frame carrying the required columns. -/
def dfc4_empty : DF := ⟨[("close", []), ("signal", [])]⟩

/-- A two-bar frame with the required columns. -/
def dfc4_ok : DF := ⟨[("close", [some 100, some 101]), ("signal", [some 0, some 1])]⟩

/-- A two-bar frame with an extra pre-existing column for C10. -/
def dfc10 : DF :=
  ⟨[("open", [some 1, some 2]), ("close", [some 10, some 11]), ("signal", [some 0, some 1])]⟩

/-- The statistics record of a frame with a single bar whose position is
0: no trades at all. -/
def stats_zero_trades : Stats :=
  { total_trades := 0
    win_rate := 0
    avg_win := some 0
    avg_loss := some 0
    profit_factor := none
    max_drawdown := some 0
    ret_mean := some 0
    ret_var := none
    total_return := some 0 }

/-! ### Helper lemmas -/

theorem length_shift1 (xs : List PFloat) : (shift1 xs).length = xs.length := by
  cases xs with
  | nil => rfl
  | cons x rest =>
    simp [shift1, List.length_dropLast]

theorem length_pct_change (xs : List PFloat) : (pct_change xs).length = xs.length := by
  cases xs with
  | nil => rfl
  | cons x rest =>
    simp [pct_change, List.length_zipWith]

theorem length_cumprodSkipAux (acc : ℚ) (xs : List PFloat) :
    (cumprodSkipAux acc xs).length = xs.length := by
  induction xs generalizing acc with
  | nil => rfl
  | cons x rest ih =>
    cases x with
    | none => simp [cumprodSkipAux, ih]
    | some q => simp [cumprodSkipAux, ih]

theorem length_cumprodSkip (xs : List PFloat) : (cumprodSkip xs).length = xs.length :=
  length_cumprodSkipAux 1 xs

theorem getLast?_some_of_ne_nil {α : Type} (l : List α) (h : l ≠ []) :
    ∃ v, l.getLast? = some v := by
  cases hl : l.getLast? with
  | none => exact absurd (List.getLast?_eq_none_iff.mp hl) h
  | some v => exact ⟨v, rfl⟩

theorem getCol?_setCol_self (df : DF) (name : String) (v : List PFloat) :
    (df.setCol name v).getCol? name = some v := by
  unfold DF.setCol DF.getCol?
  by_cases h : df.cols.any (fun c => c.1 == name)
  · rw [if_pos h]
    have hcomp : ((fun c : String × List PFloat => c.1 == name) ∘
        (fun c : String × List PFloat => if c.1 == name then (name, v) else c)) =
        (fun c : String × List PFloat => c.1 == name) := by
      funext c
      by_cases hc : c.1 = name
      · simp [hc]
      · simp [hc]
    rw [List.find?_map, hcomp]
    rw [List.any_eq_true] at h
    obtain ⟨c₀, hmem, hc₀⟩ := h
    have hsome : (df.cols.find? (fun c => c.1 == name)).isSome = true :=
      List.find?_isSome.mpr ⟨c₀, hmem, hc₀⟩
    cases hf : df.cols.find? (fun c => c.1 == name) with
    | none => rw [hf] at hsome; simp at hsome
    | some cf =>
      have hp := List.find?_some hf
      simp only [beq_iff_eq] at hp
      simp [hp]
  · rw [if_neg h]
    rw [List.find?_append]
    have hnone : df.cols.find? (fun c => c.1 == name) = none := by
      cases hf : df.cols.find? (fun c => c.1 == name) with
      | none => rfl
      | some cf =>
        exfalso
        have hp := List.find?_some hf
        have hmem : cf ∈ df.cols := List.mem_of_find?_eq_some hf
        exact h (List.any_eq_true.mpr ⟨cf, hmem, hp⟩)
    rw [hnone]
    simp [List.find?]

theorem getCol?_setCol_ne (df : DF) (name other : String) (v : List PFloat)
    (hne : (other == name) = false) :
    (df.setCol other v).getCol? name = df.getCol? name := by
  unfold DF.setCol DF.getCol?
  by_cases h : df.cols.any (fun c => c.1 == other)
  · rw [if_pos h]
    rw [List.find?_map]
    have hno : other ≠ name := by simpa using hne
    have hcomp : ((fun c : String × List PFloat => c.1 == name) ∘
        (fun c : String × List PFloat => if c.1 == other then (other, v) else c)) =
        (fun c : String × List PFloat => c.1 == name) := by
      funext c
      by_cases hc : c.1 = other
      · simp [hc, hno]
      · simp [hc]
    rw [hcomp]
    cases hf : df.cols.find? (fun c => c.1 == name) with
    | none => rfl
    | some cf =>
      have hp := List.find?_some hf
      simp only [beq_iff_eq] at hp
      have hcfo : ¬ cf.1 = other := by
        rw [hp]
        exact fun hx => hno hx.symm
      simp [hcfo]
  · rw [if_neg h]
    congr 1
    rw [List.find?_append]
    cases hf : df.cols.find? (fun c => c.1 == name) with
    | some c => rfl
    | none => simp [List.find?, hne]

theorem setCol_append_of_not_mem (df : DF) (name : String) (v : List PFloat)
    (h : df.cols.any (fun c => c.1 == name) = false) :
    df.setCol name v = ⟨df.cols ++ [(name, v)]⟩ := by
  unfold DF.setCol
  rw [if_neg (by simp [h])]

theorem any_name_append (cols extra : List (String × List PFloat)) (name : String)
    (h : cols.any (fun c => c.1 == name) = false)
    (hextra : extra.any (fun c => c.1 == name) = false) :
    (cols ++ extra).any (fun c => c.1 == name) = false := by
  rw [List.any_append, h, hextra]
  rfl

theorem filter_zip_zero (l : List PFloat) (rs : List PFloat)
    (hz : ∀ x ∈ l, x = some 0) :
    (l.zip rs).filter (fun row => pNe0 row.1) = [] := by
  induction l generalizing rs with
  | nil => rfl
  | cons x rest ih =>
    cases rs with
    | nil => rfl
    | cons r rrest =>
      have hx : x = some 0 := hz x (List.mem_cons_self x rest)
      subst hx
      rw [List.zip_cons_cons, List.filter_cons]
      have hp : pNe0 ((some 0 : PFloat), r).1 = false := by simp [pNe0]
      rw [hp]
      simp only [Bool.false_eq_true, if_false]
      exact ih rrest (fun y hy => hz y (List.mem_cons_of_mem _ hy))

theorem length_position_col (signal : List PFloat) :
    (position_col signal).length = signal.length :=
  length_shift1 signal

theorem length_returns_col (close signal : List PFloat) (hlen : close.length = signal.length) :
    (returns_col close signal).length = signal.length := by
  simp [returns_col, List.length_zipWith, length_pct_change, length_position_col, hlen]

theorem length_equity_col (close signal : List PFloat) (hlen : close.length = signal.length) :
    (equity_col close signal).length = signal.length := by
  simp [equity_col, length_cumprodSkip, length_returns_col close signal hlen]

theorem run_backtest_eq (df : DF) (signal close : List PFloat)
    (hs : df.getCol? "signal" = some signal) (hc : df.getCol? "close" = some close) :
    run_backtest df =
      match calculate_stats (position_col signal) (returns_col close signal) (equity_col close signal) with
      | .error e => .error e
      | .ok stats =>
        .ok (((df.setCol "position" (position_col signal)).setCol "returns"
            (returns_col close signal)).setCol "equity" (equity_col close signal), stats) := by
  unfold run_backtest
  rw [hs, hc]

theorem calculate_stats_ok (position returns equity : List PFloat) (lastEq : PFloat)
    (h : equity.getLast? = some lastEq) :
    calculate_stats position returns equity = .ok
      { total_trades := (trades_of position returns).length
        win_rate := win_rate_of position returns
        avg_win := avg_win_of position returns
        avg_loss := avg_loss_of position returns
        profit_factor := profit_factor_of position returns
        max_drawdown := maxSkip (List.zipWith pSub (cummaxSkip equity) equity)
        ret_mean := meanSkip returns
        ret_var := varSkip returns
        total_return := pSub lastEq (some 1) } := by
  unfold calculate_stats
  rw [h]

theorem matched_levels_nil (cc : ℚ) : matched_levels cc [] = [] := rfl

theorem matched_levels_cons_none (cc : ℚ) (name : String) (rest : List (String × PFloat)) :
    matched_levels cc ((name, none) :: rest) = matched_levels cc rest := by
  simp only [matched_levels, List.filterMap_cons]

theorem matched_levels_cons_some (cc : ℚ) (name : String) (level : ℚ)
    (rest : List (String × PFloat)) :
    matched_levels cc ((name, some level) :: rest) =
      if |cc - level| < 55 / 10000 * cc then name :: matched_levels cc rest
      else matched_levels cc rest := by
  by_cases hm : |cc - level| < 55 / 10000 * cc
  · simp only [matched_levels, List.filterMap_cons, if_pos hm]
  · simp only [matched_levels, List.filterMap_cons, if_neg hm]

/-- With no fetcher configured, one pass of the POI loop is fully
described by the (level-independent) evaluation outcome and the list of
within-threshold levels: a non-`FLAT` evaluation is returned at the first
matched level, while a `FLAT` evaluation lets the loop run through every
remaining level. -/
theorem confluence_scan_none_eq (closes deltas : List ℚ) (i : ℕ) (cd pd : ℚ)
    (levels : List (String × PFloat)) :
    confluence_scan closes deltas i none levels cd pd =
      (if poi_signal cd pd (detect_trapped_delta closes deltas i) = 0 then
        (0, matched_levels (closes.getD i 0) levels)
      else
        match matched_levels (closes.getD i 0) levels with
        | [] => (0, [])
        | nm :: _ => (poi_signal cd pd (detect_trapped_delta closes deltas i), [nm])) := by
  induction levels with
  | nil =>
    by_cases hev : poi_signal cd pd (detect_trapped_delta closes deltas i) = 0
    · simp only [confluence_scan, matched_levels_nil, if_pos hev]
    · simp only [confluence_scan, matched_levels_nil, if_neg hev]
  | cons nl rest ih =>
    obtain ⟨name, lv⟩ := nl
    cases lv with
    | none =>
      rw [confluence_scan, ih, matched_levels_cons_none]
    | some level =>
      by_cases hm : |closes.getD i 0 - level| < 55 / 10000 * closes.getD i 0
      · by_cases hev : poi_signal cd pd (detect_trapped_delta closes deltas i) = 0
        · rw [confluence_scan]
          simp only [hm, if_true]
          rw [if_neg (by simp [hev]), ih, if_pos hev, if_pos hev,
            matched_levels_cons_some, if_pos hm]
        · rw [confluence_scan]
          simp only [hm, if_true]
          rw [if_pos (by simp [hev]), if_neg hev, matched_levels_cons_some, if_pos hm]
      · rw [confluence_scan]
        simp only [hm, if_false]
        rw [ih, matched_levels_cons_some, if_neg hm]

/-- With a fetcher configured whose lookup yields no order-book delta for
bar `i`, every matched level is skipped (`continue`) and the scan ends
`FLAT`, still logging each `POI HIT!`. -/
theorem confluence_scan_nodata_eq (closes deltas : List ℚ) (i : ℕ) (cd pd : ℚ)
    (levels : List (String × PFloat)) :
    confluence_scan closes deltas i (some none) levels cd pd =
      (0, matched_levels (closes.getD i 0) levels) := by
  induction levels with
  | nil => rw [confluence_scan, matched_levels_nil]
  | cons nl rest ih =>
    obtain ⟨name, lv⟩ := nl
    cases lv with
    | none =>
      rw [confluence_scan, ih, matched_levels_cons_none]
    | some level =>
      by_cases hm : |closes.getD i 0 - level| < 55 / 10000 * closes.getD i 0
      · rw [confluence_scan]
        simp only [hm, if_true]
        rw [ih, matched_levels_cons_some, if_pos hm]
      · rw [confluence_scan]
        simp only [hm, if_false]
        rw [ih, matched_levels_cons_some, if_neg hm]

theorem rolling_center_window_length (w n j : ℕ) :
    (rolling_center_window w n j).length = min n (j + (w - w / 2)) - (j - w / 2) := by
  simp [rolling_center_window]

theorem rolling_center_max_getLast (xs : List ℚ) (h : 5 ≤ xs.length) :
    (rolling_center_max 5 xs).getLast? = some none := by
  have hn : 0 < xs.length := by omega
  unfold rolling_center_max
  rw [List.getLast?_eq_getElem?]
  simp only [List.length_map, List.length_range]
  rw [List.getElem?_map]
  rw [show (List.range xs.length)[xs.length - 1]? = some (xs.length - 1) by
    simp [List.getElem?_range, Nat.sub_lt hn]]
  simp only [Option.map_some']
  congr 1
  rw [if_neg]
  simp only [List.length_map, rolling_center_window_length]
  omega

theorem rolling_center_min_getLast (xs : List ℚ) (h : 5 ≤ xs.length) :
    (rolling_center_min 5 xs).getLast? = some none := by
  have hn : 0 < xs.length := by omega
  unfold rolling_center_min
  rw [List.getLast?_eq_getElem?]
  simp only [List.length_map, List.length_range]
  rw [List.getElem?_map]
  rw [show (List.range xs.length)[xs.length - 1]? = some (xs.length - 1) by
    simp [List.getElem?_range, Nat.sub_lt hn]]
  simp only [Option.map_some']
  congr 1
  rw [if_neg]
  simp only [List.length_map, rolling_center_window_length]
  omega

theorem equity_col_ne_nil (close signal : List PFloat) (hn : signal ≠ [])
    (hlen : close.length = signal.length) : equity_col close signal ≠ [] := by
  intro hE
  have hlenE := length_equity_col close signal hlen
  rw [hE] at hlenE
  exact hn (List.length_eq_zero.mp hlenE.symm)

/-- On a frame with the required columns and at least one row,
`run_backtest` succeeds and returns the mutated frame together with the
spelled-out statistics record. -/
theorem run_backtest_ok_shape (df : DF) (signal close : List PFloat)
    (hs : df.getCol? "signal" = some signal) (hc : df.getCol? "close" = some close)
    (hn : signal ≠ []) (hlen : close.length = signal.length) :
    ∃ lastE, (equity_col close signal).getLast? = some lastE ∧
      run_backtest df = .ok (df_with_cols df signal close, stats_of signal close lastE) := by
  obtain ⟨lastE, hlast⟩ :=
    getLast?_some_of_ne_nil _ (equity_col_ne_nil close signal hn hlen)
  refine ⟨lastE, hlast, ?_⟩
  rw [run_backtest_eq df signal close hs hc,
    calculate_stats_ok (position_col signal) (returns_col close signal) _ lastE hlast]
  rfl

theorem df_with_cols_position (df : DF) (signal close : List PFloat) :
    (df_with_cols df signal close).getCol? "position" = some (position_col signal) := by
  unfold df_with_cols
  rw [getCol?_setCol_ne _ _ _ _ (by decide), getCol?_setCol_ne _ _ _ _ (by decide),
    getCol?_setCol_self]

theorem df_with_cols_equity (df : DF) (signal close : List PFloat) :
    (df_with_cols df signal close).getCol? "equity" = some (equity_col close signal) := by
  unfold df_with_cols
  rw [getCol?_setCol_self]

theorem position_col_cons (signal : List PFloat) (hn : signal ≠ []) :
    position_col signal = none :: signal.dropLast := by
  cases signal with
  | nil => exact absurd rfl hn
  | cons s rest => rfl

/-- With every signal 0, the trades filter keeps exactly the first row,
whose lagged position is `NaN` and whose strategy return is `NaN`. -/
theorem trades_of_zero_signals (signal close : List PFloat)
    (hz : ∀ x ∈ signal, x = some 0) (hn : signal ≠ []) (hcn : close ≠ []) :
    trades_of (position_col signal) (returns_col close signal) = [(none, none)] := by
  obtain ⟨s0, srest, rfl⟩ : ∃ a l, signal = a :: l := by
    cases signal with
    | nil => exact absurd rfl hn
    | cons a l => exact ⟨a, l, rfl⟩
  obtain ⟨c0, crest, rfl⟩ : ∃ a l, close = a :: l := by
    cases close with
    | nil => exact absurd rfl hcn
    | cons a l => exact ⟨a, l, rfl⟩
  show trades_of (none :: (s0 :: srest).dropLast)
    (List.zipWith pMul (none :: List.zipWith (fun prev cur => pDiv (pSub cur prev) prev)
      (c0 :: crest) ((c0 :: crest).drop 1)) (none :: (s0 :: srest).dropLast)) = _
  rw [List.zipWith_cons_cons]
  unfold trades_of
  rw [List.zip_cons_cons, List.filter_cons]
  have hp : pNe0 ((none : PFloat), pMul none none).1 = true := rfl
  rw [hp]
  simp only [if_true]
  rw [filter_zip_zero _ _ (fun x hx => hz x (List.dropLast_subset (s0 :: srest) hx))]
  rfl

/-- The full zero-signal statistics shape behind claim C3. -/
theorem run_backtest_zero_signal_stats (df : DF) (signal close : List PFloat)
    (hs : df.getCol? "signal" = some signal) (hc : df.getCol? "close" = some close)
    (hz : ∀ x ∈ signal, x = some 0) (hn : signal ≠ [])
    (hlen : close.length = signal.length) :
    ∃ dfr st equity lastE, run_backtest df = .ok (dfr, st) ∧
      st.total_trades = 1 ∧ st.win_rate = 0 ∧
      dfr.getCol? "equity" = some equity ∧ equity.getLast? = some lastE ∧
      st.total_return = pSub lastE (some 1) := by
  obtain ⟨lastE, hlast, hok⟩ := run_backtest_ok_shape df signal close hs hc hn hlen
  have hcn : close ≠ [] := by
    intro h
    rw [h] at hlen
    exact hn (List.length_eq_zero.mp hlen.symm)
  have htr := trades_of_zero_signals signal close hz hn hcn
  refine ⟨_, _, equity_col close signal, lastE, hok, ?_, ?_, df_with_cols_equity df signal close,
    hlast, rfl⟩
  · show (stats_of signal close lastE).total_trades = 1
    simp [stats_of, htr]
  · show (stats_of signal close lastE).win_rate = 0
    have hw : winning_of (position_col signal) (returns_col close signal) = [] := by
      unfold winning_of
      rw [htr]
      rfl
    simp [stats_of, win_rate_of, htr, hw]

/-- Exhaustive description of one loop-body evaluation: with the
absorption flag instantiated to `bull_trap || bear_trap`, a `LONG`
evaluation (+1) happens exactly when the delta rose and bullish
absorption holds, a `SHORT` (-1) exactly when the delta fell and bearish
absorption holds, and each signal excludes the opposite absorption. -/
theorem poi_signal_spec (cd pd cc pc : ℚ) :
    (poi_signal cd pd ((decide (cc < pc) && decide (cd > pd)) ||
        (decide (cc > pc) && decide (cd < pd))) = 1 ↔
      cd > pd ∧ (cc < pc ∧ cd > pd)) ∧
    (poi_signal cd pd ((decide (cc < pc) && decide (cd > pd)) ||
        (decide (cc > pc) && decide (cd < pd))) = -1 ↔
      cd < pd ∧ (cc > pc ∧ cd < pd)) ∧
    (poi_signal cd pd ((decide (cc < pc) && decide (cd > pd)) ||
        (decide (cc > pc) && decide (cd < pd))) = 1 →
      (decide (cc > pc) && decide (cd < pd)) = false) ∧
    (poi_signal cd pd ((decide (cc < pc) && decide (cd > pd)) ||
        (decide (cc > pc) && decide (cd < pd))) = -1 →
      (decide (cc < pc) && decide (cd > pd)) = false) := by
  rcases lt_trichotomy pd cd with hA | hA | hA
  · rcases lt_trichotomy cc pc with hB | hB | hB
    · simp [poi_signal, hA, hB, lt_asymm hA, lt_asymm hB]
    · simp [poi_signal, hA, hB, lt_asymm hA]
    · simp [poi_signal, hA, hB, lt_asymm hA, lt_asymm hB]
  · rcases lt_trichotomy cc pc with hB | hB | hB
    · simp [poi_signal, hA, hB, lt_asymm hB]
    · simp [poi_signal, hA, hB]
    · simp [poi_signal, hA, hB, lt_asymm hB]
  · rcases lt_trichotomy cc pc with hB | hB | hB
    · simp [poi_signal, hA, hB, lt_asymm hA, lt_asymm hB]
    · simp [poi_signal, hA, hB, lt_asymm hA]
    · simp [poi_signal, hA, hB, lt_asymm hA, lt_asymm hB]

/-- Degenerate volume profile, flat-price case: all 20 `linspace` edges
coincide, so `_bins_to_cuts` rejects the duplicated bin edges under the
default `duplicates="raise"` (the two-edge exemption does not apply). -/
theorem volume_profile_flat_raises (lows highs closes volumes : List ℚ)
    (hflat : series_min lows = series_max highs) :
    calculate_volume_profile lows highs closes volumes 20 =
      .error "ValueError: Bin edges must be unique" := by
  have hls : linspace (series_min lows) (series_max highs) 20 =
      List.replicate 20 (series_min lows) := by
    rw [← hflat]
    unfold linspace
    rw [if_neg (by decide), if_neg (by decide)]
    simp only [sub_self, zero_mul, zero_div, add_zero]
    exact (List.map_const (List.range 20) (series_min lows)).trans
      (by rw [List.length_range])
  simp only [calculate_volume_profile, hls]
  have hdrop : (List.replicate 20 (series_min lows)).drop 1 =
      List.replicate 19 (series_min lows) := by
    rw [List.drop_replicate]
  have hmono : (List.zipWith (fun u v => decide (v < u)) (List.replicate 20 (series_min lows))
      (List.replicate 19 (series_min lows))).any id = false := by
    rw [List.zipWith_replicate]
    simp
  rw [hdrop]
  rw [if_neg (by rw [hmono]; exact Bool.false_ne_true)]
  rw [if_pos ⟨by simp [List.nodup_replicate], by simp⟩]

/-- Degenerate volume profile, `bins = 0`: `pd.cut` rejects the label
list, whose length 0 is not `len(bins) - 1 = -1`. -/
theorem volume_profile_bins0_raises (lows highs closes volumes : List ℚ) :
    calculate_volume_profile lows highs closes volumes 0 =
      .error "ValueError: Bin labels must be one fewer than the number of bin edges" := by
  simp [calculate_volume_profile, linspace]

/-- Degenerate volume profile, `bins = 1`: the label set is empty, the
grouped volume series is empty, and `idxmax` raises. -/
theorem volume_profile_bins1_raises (lows highs closes volumes : List ℚ) :
    calculate_volume_profile lows highs closes volumes 1 =
      .error "ValueError: attempt to get argmax of an empty sequence" := by
  simp [calculate_volume_profile, linspace, idxmax?]

/-! ### Claim C1 -/

/-- C1 counterexample: with `VAH` (diff 0) and `VAL` (diff 0.3, threshold
0.55) both within threshold and a `FLAT` evaluation at the first match,
the scan's `POI HIT!` log shows that `VAL` is examined after `VAH`
matched — the claim says later levels are never examined for this bar. -/
theorem c1_later_levels_examined :
    generate_signal_log c1_closes c1_deltas c1_levels none 20 = (0, ["VAH", "VAL"]) := by
  have hd20 : c1_deltas.getD 20 0 = 5 := by
    simp [c1_deltas, List.getD_eq_getElem?_getD, List.getElem?_replicate]
  have hd19 : c1_deltas.getD (20 - 1) 0 = 5 := by
    simp [c1_deltas, List.getD_eq_getElem?_getD, List.getElem?_replicate]
  have hc20 : c1_closes.getD 20 0 = 100 := by
    simp [c1_closes, List.getD_eq_getElem?_getD, List.getElem?_replicate]
  have hc19 : c1_closes.getD (20 - 1) 0 = 100 := by
    simp [c1_closes, List.getD_eq_getElem?_getD, List.getElem?_replicate]
  have htrap : detect_trapped_delta c1_closes c1_deltas 20 = false := by
    simp only [detect_trapped_delta, bull_trap, bear_trap, hd20, hd19, hc20, hc19]
    norm_num
  have hev : poi_signal (c1_deltas.getD 20 0) (c1_deltas.getD (20 - 1) 0)
      (detect_trapped_delta c1_closes c1_deltas 20) = 0 := by
    rw [hd20, hd19, htrap]
    simp [poi_signal]
  have hml : matched_levels (c1_closes.getD 20 0) c1_levels = ["VAH", "VAL"] := by
    rw [hc20]
    show matched_levels 100 (poi_levels (some 100) (some (1003 / 10))
      none none none none none none none) = _
    rw [poi_levels]
    rw [matched_levels_cons_some, if_pos (by rw [abs_lt]; constructor <;> norm_num)]
    rw [matched_levels_cons_some, if_pos (by rw [abs_lt]; constructor <;> norm_num)]
    rw [matched_levels_cons_none, matched_levels_cons_none, matched_levels_cons_none,
      matched_levels_cons_none, matched_levels_cons_none, matched_levels_cons_none,
      matched_levels_cons_none, matched_levels_nil]
  unfold generate_signal_log
  rw [if_neg (by decide), confluence_scan_none_eq, if_pos hev, hml]

/-- C1 (amended): with no fetcher and `i ≥ 20`, the delta-trend/absorption
evaluation is level-independent; a `LONG`/`SHORT` evaluation is emitted at
the first within-threshold level and stops the scan, but a `FLAT`
evaluation does not stop it — every later within-threshold level is
examined as well, and the emitted signal is `FLAT`. -/
theorem c1_first_match_decides_only_nonflat (closes deltas : List ℚ)
    (levels : List (String × PFloat)) (i : ℕ) (h20 : 20 ≤ i) :
    generate_signal_log closes deltas levels none i =
      (if poi_signal (deltas.getD i 0) (deltas.getD (i - 1) 0)
          (detect_trapped_delta closes deltas i) = 0 then
        (0, matched_levels (closes.getD i 0) levels)
      else
        match matched_levels (closes.getD i 0) levels with
        | [] => (0, [])
        | nm :: _ => (poi_signal (deltas.getD i 0) (deltas.getD (i - 1) 0)
            (detect_trapped_delta closes deltas i), [nm])) := by
  unfold generate_signal_log
  rw [if_neg (by omega)]
  exact confluence_scan_none_eq closes deltas i _ _ levels

/-- C1 witness: the amended theorem applied to the concrete C1 scenario. -/
theorem c1_first_match_decides_only_nonflat_witness :
    20 ≤ 20 ∧
    generate_signal_log c1_closes c1_deltas c1_levels none 20 =
      (if poi_signal (c1_deltas.getD 20 0) (c1_deltas.getD (20 - 1) 0)
          (detect_trapped_delta c1_closes c1_deltas 20) = 0 then
        (0, matched_levels (c1_closes.getD 20 0) c1_levels)
      else
        match matched_levels (c1_closes.getD 20 0) c1_levels with
        | [] => (0, [])
        | nm :: _ => (poi_signal (c1_deltas.getD 20 0) (c1_deltas.getD (20 - 1) 0)
            (detect_trapped_delta c1_closes c1_deltas 20), [nm])) :=
  ⟨by decide, c1_first_match_decides_only_nonflat c1_closes c1_deltas c1_levels 20 (by decide)⟩

/-! ### Claim C6 -/

/-- C6 counterexample: when the order-book lookup returns nothing
(`some none`), the matched level is skipped (`continue`) and the emitted
signal is `FLAT` — whereas the bulk-delta evaluation at that same level
(no fetcher) yields `LONG`, which is what the claim says should happen. -/
theorem c6_missing_snapshot_skips_level :
    generate_signal c6_closes c6_deltas c6_levels (some none) 20 = 0 ∧
    generate_signal c6_closes c6_deltas c6_levels none 20 = 1 := by
  have hd20 : c6_deltas.getD 20 0 = 6 := by
    simp [c6_deltas, List.getD_append_right]
  have hd19 : c6_deltas.getD (20 - 1) 0 = 5 := by
    simp [c6_deltas, List.getD_append, List.getD_eq_getElem?_getD, List.getElem?_replicate]
  have hc20 : c6_closes.getD 20 0 = 499 / 5 := by
    simp [c6_closes, List.getD_append_right]
  have hc19 : c6_closes.getD (20 - 1) 0 = 100 := by
    simp [c6_closes, List.getD_append, List.getD_eq_getElem?_getD, List.getElem?_replicate]
  constructor
  · unfold generate_signal generate_signal_log
    rw [if_neg (by decide), confluence_scan_nodata_eq]
  · have htrap : detect_trapped_delta c6_closes c6_deltas 20 = true := by
      simp only [detect_trapped_delta, bull_trap, bear_trap, hd20, hd19, hc20, hc19]
      norm_num
    unfold generate_signal generate_signal_log
    rw [if_neg (by decide), confluence_scan_none_eq, hd20, hd19, htrap]
    have h1 : poi_signal 6 5 true = 1 := by norm_num [poi_signal]
    rw [h1, if_neg (by norm_num), hc20]
    have hml : matched_levels (499 / 5) c6_levels = ["VAH"] := by
      show matched_levels (499 / 5) (poi_levels (some 100)
        none none none none none none none none) = _
      rw [poi_levels]
      rw [matched_levels_cons_some, if_pos (by rw [abs_lt]; constructor <;> norm_num)]
      rw [matched_levels_cons_none, matched_levels_cons_none, matched_levels_cons_none,
        matched_levels_cons_none, matched_levels_cons_none, matched_levels_cons_none,
        matched_levels_cons_none, matched_levels_cons_none, matched_levels_nil]
    rw [hml]

/-- C6 (amended): when a fetcher is configured but its lookup fails or
returns nothing for bar `i`, every matched level is skipped and the
emitted signal is always `FLAT`; the bulk `delta` column drives the
decision only when no fetcher is configured at all. -/
theorem c6_missing_snapshot_always_flat (closes deltas : List ℚ)
    (levels : List (String × PFloat)) (i : ℕ) :
    generate_signal closes deltas levels (some none) i = 0 := by
  unfold generate_signal generate_signal_log
  by_cases h : i < 20
  · rw [if_pos h]
  · rw [if_neg h, confluence_scan_nodata_eq]

/-! ### Claim C7 -/

/-- C7 counterexample: on a 7-bar sequence the claim expects the swing
high/low to be the last fully-formed centered window (max 7 / min 3), but
`detect_swing_points` returns `NaN` for both: the trailing centered
window is incomplete and pandas' default `min_periods` yields `NaN`. -/
theorem c7_swing_points_nan_at_edge :
    detect_swing_points c7_highs c7_lows = (some none, some none) ∧
      (some (none : PFloat) ≠ some (some (7 : ℚ))) ∧
      (some (none : PFloat) ≠ some (some (3 : ℚ))) := by
  decide

/-- C7 (amended): for every bar sequence of length at least 5,
`detect_swing_points` returns `NaN` for both the swing high and the swing
low, because the 5-bar centered window at the last row extends two slots
past the end of the series and pandas' default `min_periods = 5` marks it
undefined. -/
theorem c7_swing_points_always_nan (highs lows : List ℚ)
    (hh : 5 ≤ highs.length) (hl : 5 ≤ lows.length) :
    detect_swing_points highs lows = (some none, some none) := by
  unfold detect_swing_points
  rw [rolling_center_max_getLast highs hh, rolling_center_min_getLast lows hl]

/-- C7 witness: the amended theorem applied to the 7-bar sequence. -/
theorem c7_swing_points_always_nan_witness :
    5 ≤ c7_highs.length ∧ 5 ≤ c7_lows.length ∧
    detect_swing_points c7_highs c7_lows = (some none, some none) :=
  ⟨by decide, by decide,
    c7_swing_points_always_nan c7_highs c7_lows (by decide) (by decide)⟩

/-! ### Claim C2 -/

/-- C2 counterexample: on the two-bar frame `dfc2`, `position[0]` is
`NaN` (the value `shift(1)` inserts), not 0 as the claim states. -/
theorem c2_position0_is_nan :
    ((run_backtest dfc2).toOption.bind (fun r => r.1.getCol? "position")).bind List.head? =
      some none ∧
    some (none : PFloat) ≠ some (some (0 : ℚ)) := by
  obtain ⟨lastE, hlast, hok⟩ := run_backtest_ok_shape dfc2 [some 1, some 0] [some 10, some 11]
    (by decide) (by decide) (by decide) (by decide)
  refine ⟨?_, by decide⟩
  rw [hok]
  rfl

/-- C2 (amended): `run_backtest` sets `position[t] = signal[t-1]` for
every `t > 0`, and `position[0]` is `NaN` (the missing value introduced
by `shift(1)`), not 0. -/
theorem c2_position_is_lagged_signal (df : DF) (signal close : List PFloat)
    (hs : df.getCol? "signal" = some signal) (hc : df.getCol? "close" = some close)
    (hn : signal ≠ []) (hlen : close.length = signal.length) :
    ∃ dfr st, run_backtest df = .ok (dfr, st) ∧
      dfr.getCol? "position" = some (none :: signal.dropLast) ∧
      (∀ t, t + 1 < signal.length →
        (none :: signal.dropLast).getD (t + 1) none = signal.getD t none) := by
  obtain ⟨lastE, hlast, hok⟩ := run_backtest_ok_shape df signal close hs hc hn hlen
  refine ⟨_, _, hok, ?_, ?_⟩
  · rw [df_with_cols_position, position_col_cons signal hn]
  · intro t ht
    rw [List.getD_cons_succ, List.getD_eq_getElem?_getD, List.getD_eq_getElem?_getD,
      List.dropLast_eq_take, List.getElem?_take, if_pos (by omega)]

/-- C2 witness: the amended theorem applied to the two-bar frame. -/
theorem c2_position_is_lagged_signal_witness :
    dfc2.getCol? "signal" = some [some 1, some 0] ∧
    (∃ dfr st, run_backtest dfc2 = .ok (dfr, st) ∧
      dfr.getCol? "position" = some (none :: ([some (1 : ℚ), some 0] : List PFloat).dropLast) ∧
      (∀ t, t + 1 < ([some (1 : ℚ), some 0] : List PFloat).length →
        (none :: ([some (1 : ℚ), some 0] : List PFloat).dropLast).getD (t + 1) none =
          ([some (1 : ℚ), some 0] : List PFloat).getD t none)) :=
  ⟨by decide, c2_position_is_lagged_signal dfc2 [some 1, some 0] [some 10, some 11]
    (by decide) (by decide) (by decide) (by decide)⟩

/-! ### Claim C3 -/

/-- C3 counterexample: on the 100-bar all-zero-signal frame the
statistics report `total_trades = 1`, not 0 — the first row's lagged
position is `NaN` and pandas evaluates `NaN != 0` as `True`, so that row
passes the trades filter. -/
theorem c3_total_trades_is_one_not_zero :
    (run_backtest dfc3).toOption.map (fun r => r.2.total_trades) = some 1 ∧
    (some 1 : Option ℕ) ≠ some 0 := by
  obtain ⟨dfr, st, equity, lastE, hok, h1, _⟩ :=
    run_backtest_zero_signal_stats dfc3 (List.replicate 100 (some 0))
      (List.replicate 100 (some 100)) (by decide) (by decide)
      (fun x hx => List.eq_of_mem_replicate hx) (by decide) (by decide)
  refine ⟨?_, by decide⟩
  rw [hok]
  simp only [Except.toOption, Option.map_some']
  rw [h1]

/-- C3 (amended): for every non-empty frame whose signal column is zero
everywhere, `run_backtest` completes without raising; the statistics
report `total_trades = 1` (the first bar, whose lagged position is `NaN`,
passes the `position != 0` filter), `win_rate = 0`, and
`total_return = equity[-1] - 1`. -/
theorem c3_zero_signals_stats (df : DF) (signal close : List PFloat)
    (hs : df.getCol? "signal" = some signal) (hc : df.getCol? "close" = some close)
    (hz : ∀ x ∈ signal, x = some 0) (hn : signal ≠ [])
    (hlen : close.length = signal.length) :
    ∃ dfr st equity lastE, run_backtest df = .ok (dfr, st) ∧
      st.total_trades = 1 ∧ st.win_rate = 0 ∧
      dfr.getCol? "equity" = some equity ∧ equity.getLast? = some lastE ∧
      st.total_return = pSub lastE (some 1) :=
  run_backtest_zero_signal_stats df signal close hs hc hz hn hlen

/-- C3 witness: the amended theorem applied to the 100-bar frame. -/
theorem c3_zero_signals_stats_witness :
    (∀ x ∈ (List.replicate 100 (some (0 : ℚ)) : List PFloat), x = some 0) ∧
    (∃ dfr st equity lastE, run_backtest dfc3 = .ok (dfr, st) ∧
      st.total_trades = 1 ∧ st.win_rate = 0 ∧
      dfr.getCol? "equity" = some equity ∧ equity.getLast? = some lastE ∧
      st.total_return = pSub lastE (some 1)) :=
  ⟨fun x hx => List.eq_of_mem_replicate hx,
    c3_zero_signals_stats dfc3 (List.replicate 100 (some 0)) (List.replicate 100 (some 100))
      (by decide) (by decide) (fun x hx => List.eq_of_mem_replicate hx) (by decide) (by decide)⟩

/-! ### Claim C4 -/

/-- C4 counterexample: on an empty frame the backtest raises `IndexError`
from `df['equity'].iloc[-1]` inside the statistics calculation — it does
not reject the input upfront with a "no data" report. -/
theorem c4_empty_frame_raises_index_error :
    run_backtest dfc4_empty =
      Except.error "IndexError: single positional indexer is out-of-bounds" := by
  rfl

/-- C4 (amended): for every non-empty frame carrying the required
`signal` and `close` columns no exception propagates out of
`run_backtest`; on an empty frame the statistics reducers do run and the
last-element access of `equity` raises `IndexError` — there is no
upfront "no data" rejection. -/
theorem c4_nonempty_total_empty_index_error :
    (∀ (df : DF) (signal close : List PFloat),
      df.getCol? "signal" = some signal → df.getCol? "close" = some close →
      signal ≠ [] → close.length = signal.length →
      ∃ result, run_backtest df = Except.ok result) ∧
    (∀ df : DF, df.getCol? "signal" = some [] → df.getCol? "close" = some [] →
      run_backtest df =
        Except.error "IndexError: single positional indexer is out-of-bounds") := by
  constructor
  · intro df signal close hs hc hn hlen
    obtain ⟨lastE, hlast, hok⟩ := run_backtest_ok_shape df signal close hs hc hn hlen
    exact ⟨_, hok⟩
  · intro df hs hc
    rw [run_backtest_eq df [] [] hs hc]
    rfl

/-- C4 witness: both halves of the amended theorem at concrete frames. -/
theorem c4_nonempty_total_empty_index_error_witness :
    (run_backtest dfc4_ok).toOption.isSome = true ∧
    run_backtest dfc4_empty =
      Except.error "IndexError: single positional indexer is out-of-bounds" := by
  constructor
  · obtain ⟨r, hr⟩ := c4_nonempty_total_empty_index_error.1 dfc4_ok [some 0, some 1]
      [some 100, some 101] (by decide) (by decide) (by decide) (by decide)
    rw [hr]
    rfl
  · exact c4_nonempty_total_empty_index_error.2 dfc4_empty (by decide) (by decide)

/-! ### Claim C5 -/

/-- C5 counterexample: on a one-bar frame with `low = high = close = 5`
(global min low equals global max high) and the default 20 bins,
`calculate_volume_profile` raises — `pd.cut` rejects the 20 duplicated
bin edges under the default `duplicates="raise"` — instead of returning
the collapsed bin's bounds. -/
theorem c5_flat_prices_raise :
    calculate_volume_profile [5] [5] [5] [10] 20 =
      .error "ValueError: Bin edges must be unique" :=
  volume_profile_flat_raises [5] [5] [5] [10] rfl

/-- C5 (amended): `calculate_volume_profile` raises on degenerate input
rather than degrading: with all prices collapsed (`min(low) = max(high)`,
default 20 bins) `pd.cut` rejects the duplicated bin edges under the
default `duplicates="raise"`; with `bins = 0` `pd.cut` rejects the label
count; with `bins = 1` the grouped volume series is empty and `idxmax`
raises. -/
theorem c5_degenerate_volume_profile_raises (lows highs closes volumes : List ℚ)
    (hflat : series_min lows = series_max highs) :
    calculate_volume_profile lows highs closes volumes 20 =
      .error "ValueError: Bin edges must be unique" ∧
    calculate_volume_profile lows highs closes volumes 0 =
      .error "ValueError: Bin labels must be one fewer than the number of bin edges" ∧
    calculate_volume_profile lows highs closes volumes 1 =
      .error "ValueError: attempt to get argmax of an empty sequence" :=
  ⟨volume_profile_flat_raises lows highs closes volumes hflat,
    volume_profile_bins0_raises lows highs closes volumes,
    volume_profile_bins1_raises lows highs closes volumes⟩

/-- C5 witness: the amended theorem applied to the one-bar flat frame. -/
theorem c5_degenerate_volume_profile_raises_witness :
    series_min [(5 : ℚ)] = series_max [(5 : ℚ)] ∧
    (calculate_volume_profile [(5 : ℚ)] [5] [5] [10] 20 =
        .error "ValueError: Bin edges must be unique" ∧
      calculate_volume_profile [(5 : ℚ)] [5] [5] [10] 0 =
        .error "ValueError: Bin labels must be one fewer than the number of bin edges" ∧
      calculate_volume_profile [(5 : ℚ)] [5] [5] [10] 1 =
        .error "ValueError: attempt to get argmax of an empty sequence") :=
  ⟨rfl, c5_degenerate_volume_profile_raises [5] [5] [5] [10] rfl⟩

/-! ### Claim C8 -/

/-- C8: with bulk delta (no fetcher), `i ≥ 20` and at least one POI level
within threshold, the emitted signal is `LONG` iff the delta rose and
bullish absorption holds (`close[i] < close[i-1]` and
`delta[i] > delta[i-1]`), and `SHORT` iff the delta fell and bearish
absorption holds; a `LONG` never coincides with bearish absorption and a
`SHORT` never with bullish absorption. -/
theorem c8_signal_iff_delta_trend_and_absorption
    (closes deltas : List ℚ) (levels : List (String × PFloat)) (i : ℕ)
    (h20 : 20 ≤ i)
    (hmatch : matched_levels (closes.getD i 0) levels ≠ []) :
    (generate_signal closes deltas levels none i = 1 ↔
      deltas.getD i 0 > deltas.getD (i - 1) 0 ∧
        (closes.getD i 0 < closes.getD (i - 1) 0 ∧
          deltas.getD i 0 > deltas.getD (i - 1) 0)) ∧
    (generate_signal closes deltas levels none i = -1 ↔
      deltas.getD i 0 < deltas.getD (i - 1) 0 ∧
        (closes.getD i 0 > closes.getD (i - 1) 0 ∧
          deltas.getD i 0 < deltas.getD (i - 1) 0)) ∧
    (generate_signal closes deltas levels none i = 1 → bear_trap closes deltas i = false) ∧
    (generate_signal closes deltas levels none i = -1 → bull_trap closes deltas i = false) := by
  have hi2 : ¬ i < 2 := by omega
  have hsig : generate_signal closes deltas levels none i =
      poi_signal (deltas.getD i 0) (deltas.getD (i - 1) 0)
        (detect_trapped_delta closes deltas i) := by
    unfold generate_signal generate_signal_log
    rw [if_neg (by omega), confluence_scan_none_eq]
    by_cases hev : poi_signal (deltas.getD i 0) (deltas.getD (i - 1) 0)
        (detect_trapped_delta closes deltas i) = 0
    · rw [if_pos hev, hev]
    · rw [if_neg hev]
      cases hml : matched_levels (closes.getD i 0) levels with
      | nil => exact absurd hml hmatch
      | cons nm tail => rfl
  have htd : detect_trapped_delta closes deltas i =
      ((decide (closes.getD i 0 < closes.getD (i - 1) 0) &&
          decide (deltas.getD i 0 > deltas.getD (i - 1) 0)) ||
        (decide (closes.getD i 0 > closes.getD (i - 1) 0) &&
          decide (deltas.getD i 0 < deltas.getD (i - 1) 0))) := by
    unfold detect_trapped_delta bull_trap bear_trap
    rw [if_neg hi2]
  rw [hsig, htd]
  have hspec := poi_signal_spec (deltas.getD i 0) (deltas.getD (i - 1) 0)
    (closes.getD i 0) (closes.getD (i - 1) 0)
  refine ⟨hspec.1, hspec.2.1, ?_, ?_⟩
  · intro h1
    show (decide (closes.getD i 0 > closes.getD (i - 1) 0) &&
      decide (deltas.getD i 0 < deltas.getD (i - 1) 0)) = false
    exact hspec.2.2.1 h1
  · intro h1
    show (decide (closes.getD i 0 < closes.getD (i - 1) 0) &&
      decide (deltas.getD i 0 > deltas.getD (i - 1) 0)) = false
    exact hspec.2.2.2 h1

/-- C8 witness: the theorem applied to the C6/C8 bars (delta rose, close
fell, `VAH` matched), where the emitted signal is `LONG`. -/
theorem c8_signal_iff_delta_trend_and_absorption_witness :
    20 ≤ 20 ∧
    matched_levels (c6_closes.getD 20 0) c6_levels ≠ [] ∧
    ((generate_signal c6_closes c6_deltas c6_levels none 20 = 1 ↔
      c6_deltas.getD 20 0 > c6_deltas.getD (20 - 1) 0 ∧
        (c6_closes.getD 20 0 < c6_closes.getD (20 - 1) 0 ∧
          c6_deltas.getD 20 0 > c6_deltas.getD (20 - 1) 0)) ∧
    (generate_signal c6_closes c6_deltas c6_levels none 20 = -1 ↔
      c6_deltas.getD 20 0 < c6_deltas.getD (20 - 1) 0 ∧
        (c6_closes.getD 20 0 > c6_closes.getD (20 - 1) 0 ∧
          c6_deltas.getD 20 0 < c6_deltas.getD (20 - 1) 0)) ∧
    (generate_signal c6_closes c6_deltas c6_levels none 20 = 1 →
      bear_trap c6_closes c6_deltas 20 = false) ∧
    (generate_signal c6_closes c6_deltas c6_levels none 20 = -1 →
      bull_trap c6_closes c6_deltas 20 = false)) := by
  have hc20 : c6_closes.getD 20 0 = 499 / 5 := by
    simp [c6_closes, List.getD_append_right]
  have hml : matched_levels (c6_closes.getD 20 0) c6_levels ≠ [] := by
    rw [hc20]
    show matched_levels (499 / 5) (poi_levels (some 100)
      none none none none none none none none) ≠ _
    rw [poi_levels]
    rw [matched_levels_cons_some, if_pos (by rw [abs_lt]; constructor <;> norm_num)]
    simp
  exact ⟨by decide, hml,
    c8_signal_iff_delta_trend_and_absorption c6_closes c6_deltas c6_levels 20 (by decide) hml⟩

/-! ### Claim C9 -/

/-- C9: the statistics record always defines `profit_factor`: it is
`-avg_win / avg_loss` whenever `avg_loss != 0` and `np.inf` (modelled as
`none`) otherwise; with zero trades both `avg_win` and `avg_loss` are 0,
so the guarded division is skipped and `profit_factor` is `np.inf`. -/
theorem c9_profit_factor_guard (position returns equity : List PFloat) (st : Stats)
    (h : calculate_stats position returns equity = Except.ok st) :
    (st.avg_loss ≠ some 0 → st.profit_factor = pNeg (pDiv st.avg_win st.avg_loss)) ∧
    (st.avg_loss = some 0 → st.profit_factor = none) ∧
    (trades_of position returns = [] →
      st.avg_win = some 0 ∧ st.avg_loss = some 0 ∧ st.profit_factor = none) := by
  unfold calculate_stats at h
  cases hE : equity.getLast? with
  | none =>
    rw [hE] at h
    exact absurd h (by simp)
  | some lastEq =>
    rw [hE] at h
    simp only [Except.ok.injEq] at h
    subst h
    refine ⟨?_, ?_, ?_⟩
    · intro hne
      show profit_factor_of position returns =
        pNeg (pDiv (avg_win_of position returns) (avg_loss_of position returns))
      unfold profit_factor_of
      rw [if_pos hne]
    · intro heq
      show profit_factor_of position returns = none
      unfold profit_factor_of
      rw [if_neg (fun hne => hne heq)]
    · intro htr
      have hwin : winning_of position returns = [] := by
        unfold winning_of
        rw [htr]
        rfl
      have hlos : losing_of position returns = [] := by
        unfold losing_of
        rw [htr]
        rfl
      have haw : avg_win_of position returns = some 0 := by
        unfold avg_win_of
        rw [hwin]
        rfl
      have hal : avg_loss_of position returns = some 0 := by
        unfold avg_loss_of
        rw [hlos]
        rfl
      refine ⟨haw, hal, ?_⟩
      show profit_factor_of position returns = none
      unfold profit_factor_of
      rw [if_neg (fun hne => hne hal)]

/-- C9 witness: a one-bar frame whose only position is 0 has no trades;
its record carries `avg_win = avg_loss = 0` and `profit_factor = inf`. -/
theorem c9_profit_factor_guard_witness :
    calculate_stats [some 0] [some 0] [some 1] = Except.ok stats_zero_trades ∧
    (stats_zero_trades.avg_win = some 0 ∧ stats_zero_trades.avg_loss = some 0 ∧
      stats_zero_trades.profit_factor = none) := by
  have hcs : calculate_stats [some 0] [some 0] [some 1] = Except.ok stats_zero_trades := by
    norm_num [calculate_stats, stats_zero_trades, trades_of, winning_of, losing_of,
      win_rate_of, avg_win_of, avg_loss_of, profit_factor_of, meanSkip, varSkip, maxSkip,
      cummaxSkip, cummaxSkipAux, pSub, pNe0, pGt0, pLt0, List.filterMap_cons,
      List.filterMap_nil, List.foldl_cons, List.foldl_nil, List.sum_cons, List.sum_nil]
  exact ⟨hcs,
    (c9_profit_factor_guard [some 0] [some 0] [some 1] stats_zero_trades hcs).2.2 (by decide)⟩

/-! ### Claim C10 -/

/-- C10: `run_backtest` extends the caller's frame in place with exactly
the three columns `position`, `returns` and `equity` (appended in that
order at the end); every pre-existing column, the row order and the row
count are unchanged, and the frame stored in the results is that mutated
frame, not a copy. -/
theorem c10_appends_exactly_three_columns (df : DF) (signal close : List PFloat)
    (hs : df.getCol? "signal" = some signal) (hc : df.getCol? "close" = some close)
    (hn : signal ≠ []) (hlen : close.length = signal.length)
    (hp : df.cols.any (fun c => c.1 == "position") = false)
    (hr : df.cols.any (fun c => c.1 == "returns") = false)
    (he : df.cols.any (fun c => c.1 == "equity") = false) :
    ∃ p r e st, run_backtest df =
        .ok (⟨df.cols ++ [("position", p), ("returns", r), ("equity", e)]⟩, st) ∧
      p.length = signal.length ∧ r.length = signal.length ∧ e.length = signal.length := by
  obtain ⟨lastE, hlast, hok⟩ := run_backtest_ok_shape df signal close hs hc hn hlen
  refine ⟨position_col signal, returns_col close signal, equity_col close signal,
    stats_of signal close lastE, ?_,
    length_position_col signal, length_returns_col close signal hlen,
    length_equity_col close signal hlen⟩
  rw [hok]
  unfold df_with_cols
  rw [setCol_append_of_not_mem df _ _ hp]
  rw [setCol_append_of_not_mem _ _ _
    (any_name_append df.cols [("position", position_col signal)] "returns" hr rfl)]
  rw [setCol_append_of_not_mem _ _ _
    (any_name_append (df.cols ++ [("position", position_col signal)])
      [("returns", returns_col close signal)] "equity"
      (any_name_append df.cols [("position", position_col signal)] "equity" he rfl) rfl)]
  simp [List.append_assoc]

/-- C10 witness: on a frame with a pre-existing `open` column the result
frame carries exactly the original columns followed by the three derived
ones, in order. -/
theorem c10_appends_exactly_three_columns_witness :
    (run_backtest dfc10).toOption.map (fun r => r.1.cols.map Prod.fst) =
      some ["open", "close", "signal", "position", "returns", "equity"] := by
  obtain ⟨p, r, e, st, hok, hp2, hr2, he2⟩ := c10_appends_exactly_three_columns dfc10
    [some 0, some 1] [some 10, some 11] (by decide) (by decide) (by decide) (by decide)
    (by decide) (by decide) (by decide)
  rw [hok]
  rfl

end OrderflowBacktest
